import Mathlib

/-!
Verification of the AbletonMCP repository: a shallow embedding, in Lean 4, of
the Remote Script command server (`src/AbletonMCP_Remote_Script`) and the
adapter-side connection client (`src/MCP_Server/core/connection.py`), together
with theorems settling the frozen specification claims.

Conventions of the embedding:
* JSON values exchanged over the socket are modelled by the inductive `JVal`,
  with numbers as rationals (Python's ints and floats both embed into `ℚ`).
* The host's song/track/clip object graph is modelled by plain structures
  (`Song`, `Track`, `ClipSlot`, `Clip`, `Device`); host-side effects such as
  `clip_slot.fire()` or `song.start_playing()` are modelled as the evident
  field updates.
* Fallible Python code (code that can raise) is modelled in `Except String`,
  the error string being the exception text.  Every handler in the source
  raises before its first host mutation on each of its failure paths, so
  `Except String (JVal × Song)` (which keeps the original state on error)
  is a faithful state model for the commands the claims are about.
* Command parameters that the source immediately uses as list indices are
  modelled as `Int` after a Python-faithful extraction step
  (non-integer JSON values would raise a `TypeError` at the indexing site).
-/

namespace AbletonMCP

/-- JSON-like values: the wire values produced by `json.loads` and consumed by
the handlers.  Numbers are rationals. -/
inductive JVal where
  | null
  | bool (b : Bool)
  | num (q : ℚ)
  | str (s : String)
  | arr (xs : List JVal)
  | obj (fields : List (String × JVal))

instance : Inhabited JVal := ⟨JVal.null⟩

/-- Lookup of a key in a JSON object's field list (Python `dict` lookup; the
parser and all concrete inputs in this file use distinct keys, so first-match
lookup agrees with Python's last-write-wins dictionaries). -/
def jLookup : List (String × JVal) → String → Option JVal
  | [], _ => none
  | (k, v) :: rest, key => if k = key then some v else jLookup rest key

/-- Python `d.get(key, default)` on a JSON object's field list. -/
def dictGet (fields : List (String × JVal)) (key : String) (default : JVal) : JVal :=
  (jLookup fields key).getD default

/-- Python truthiness of a JSON value (`if x:`). -/
def JVal.truthy : JVal → Bool
  | .null => false
  | .bool b => b
  | .num q => q ≠ 0
  | .str s => s ≠ ""
  | .arr xs => ¬ xs.isEmpty
  | .obj fields => ¬ fields.isEmpty

/-! ## Host object model (song/track/clip/device)

Modelled from the attribute surface the handlers actually touch.  The host
effects (`create_clip`, `fire`, `stop`, `start_playing`, `stop_playing`,
`browser.load_item`) are modelled as the corresponding field updates. -/

/-- A device on a track, as read by `SessionHandlers._get_device_type` and
`get_track_info`. -/
structure Device where
  name : String
  can_have_drum_pads : Bool
  can_have_chains : Bool
  class_display_name : String
  class_name : String
  is_enabled : Bool
deriving Inhabited

/-- A clip in a clip slot.  `notes` holds the tuples passed to
`clip.set_notes` — raw JSON values with the source's defaults filled in,
exactly as `add_notes_to_clip` builds them. -/
structure Clip where
  name : String
  length : ℚ
  notes : List (JVal × JVal × JVal × JVal × JVal)
  is_playing : Bool
  is_recording : Bool
deriving Inhabited

/-- A clip slot; `clip = none` models an empty slot (`has_clip == False`). -/
structure ClipSlot where
  clip : Option Clip
deriving Inhabited

/-- Python `clip_slot.has_clip`. -/
def ClipSlot.has_clip (slot : ClipSlot) : Bool := slot.clip.isSome

/-- A track, with the attributes read by the session and clip handlers. -/
structure Track where
  name : String
  clip_slots : List ClipSlot
  devices : List Device
  has_audio_input : Bool
  has_midi_input : Bool
  mute : Bool
  solo : Bool
  arm : Bool
  volume : ℚ
  panning : ℚ
deriving Inhabited

/-- The song state owned by the host.  `selected_track` models
`song.view.selected_track` (as a track index) and `loaded_items` records the
URIs loaded through `app.browser.load_item`. -/
structure Song where
  tempo : ℚ
  signature_numerator : Int
  signature_denominator : Int
  tracks : List Track
  return_tracks : List Track
  master_volume : ℚ
  master_panning : ℚ
  is_playing : Bool
  selected_track : Option Nat
  loaded_items : List String
deriving Inhabited

/-- Replace the clip stored at `(track_index, clip_index)`. -/
def Song.setClip (s : Song) (track_index clip_index : Nat) (clip : Option Clip) : Song :=
  let track := s.tracks.getD track_index default
  let track' := { track with clip_slots := track.clip_slots.set clip_index ⟨clip⟩ }
  { s with tracks := s.tracks.set track_index track' }

/-! ## utils/validation.py -/

/-- Embeds `validate_track_index` (validation.py lines 4–20). -/
def validate_track_index (track_index : Int) (song : Song) : Except String Bool :=
  if track_index < 0 ∨ (song.tracks.length : Int) ≤ track_index then
    .error "Track index out of range"
  else .ok true

/-- Embeds `validate_clip_index` (validation.py lines 23–39). -/
def validate_clip_index (clip_index : Int) (track : Track) : Except String Bool :=
  if clip_index < 0 ∨ (track.clip_slots.length : Int) ≤ clip_index then
    .error "Clip index out of range"
  else .ok true

/-- Embeds `validate_tempo` (validation.py lines 42–57): accepts exactly
`20.0 <= tempo <= 999.0`. -/
def validate_tempo (tempo : ℚ) : Except String Bool :=
  if ¬ (20 ≤ tempo ∧ tempo ≤ 999) then
    .error ("Tempo must be between 20.0 and 999.0, got " ++ toString tempo)
  else .ok true

/-- Embeds `validate_clip_length` (validation.py lines 60–75). -/
def validate_clip_length (length : ℚ) : Except String Bool :=
  if length ≤ 0 then
    .error ("Clip length must be positive, got " ++ toString length)
  else .ok true

/-- Embeds `validate_note_data` (validation.py lines 78–115).  The source
iterates over `["pitch", "start_time", "duration"]` reporting the first
missing field, then range-checks pitch, velocity, start time and duration.
Non-numeric field values would raise a `TypeError` at the Python comparison,
modelled by the `TypeError` error strings. -/
def validate_note_data (note : JVal) : Except String Bool :=
  match note with
  | .obj fields =>
    if (jLookup fields "pitch").isNone then
      .error "Note data missing required field: pitch"
    else if (jLookup fields "start_time").isNone then
      .error "Note data missing required field: start_time"
    else if (jLookup fields "duration").isNone then
      .error "Note data missing required field: duration"
    else
      match dictGet fields "pitch" (.num 60) with
      | .num pitch =>
        if ¬ (0 ≤ pitch ∧ pitch ≤ 127) then
          .error ("MIDI pitch must be between 0 and 127, got " ++ toString pitch)
        else
          match dictGet fields "velocity" (.num 100) with
          | .num velocity =>
            if ¬ (0 ≤ velocity ∧ velocity ≤ 127) then
              .error ("MIDI velocity must be between 0 and 127, got " ++ toString velocity)
            else
              match dictGet fields "start_time" (.num 0) with
              | .num start_time =>
                if start_time < 0 then
                  .error ("Start time must be non-negative, got " ++ toString start_time)
                else
                  match dictGet fields "duration" (.num (1/4)) with
                  | .num duration =>
                    if duration ≤ 0 then
                      .error ("Duration must be positive, got " ++ toString duration)
                    else .ok true
                  | _ => .error "TypeError: unorderable types"
              | _ => .error "TypeError: unorderable types"
          | _ => .error "TypeError: unorderable types"
      | _ => .error "TypeError: unorderable types"
  | _ => .error "AttributeError: object has no attribute get"

/-! ## utils/base_handler.py -/

/-- Embeds `BaseHandler.get_track` (base_handler.py lines 102–116): validates
the index and returns the track. -/
def BaseHandler.get_track (s : Song) (track_index : Int) : Except String Track :=
  match validate_track_index track_index s with
  | .error e => .error e
  | .ok _ => .ok (s.tracks.getD track_index.toNat default)

/-! ## handlers/session_handlers.py -/

/-- Embeds `SessionHandlers._get_device_type` (session_handlers.py
lines 121–138). -/
def SessionHandlers.get_device_type (device : Device) : String :=
  if device.can_have_drum_pads then "drum_machine"
  else if device.can_have_chains then "rack"
  else if (device.class_display_name.toLower.splitOn "instrument").length > 1 then "instrument"
  else if (device.class_name.toLower.splitOn "audio_effect").length > 1 then "audio_effect"
  else if (device.class_name.toLower.splitOn "midi_effect").length > 1 then "midi_effect"
  else "unknown"

/-- Embeds `SessionHandlers.get_session_info` (session_handlers.py
lines 9–27). -/
def SessionHandlers.get_session_info (s : Song) : Except String (JVal × Song) :=
  .ok (.obj
    [("tempo", .num s.tempo),
     ("signature_numerator", .num s.signature_numerator),
     ("signature_denominator", .num s.signature_denominator),
     ("track_count", .num s.tracks.length),
     ("return_track_count", .num s.return_tracks.length),
     ("master_track", .obj
       [("name", .str "Master"),
        ("volume", .num s.master_volume),
        ("panning", .num s.master_panning)])], s)

/-- Projection of one clip slot used by `get_track_info`. -/
def SessionHandlers.clipSlotInfo (idx : Nat) (slot : ClipSlot) : JVal :=
  .obj
    [("index", .num idx),
     ("has_clip", .bool slot.has_clip),
     ("clip",
       match slot.clip with
       | none => .null
       | some clip => .obj
           [("name", .str clip.name),
            ("length", .num clip.length),
            ("is_playing", .bool clip.is_playing),
            ("is_recording", .bool clip.is_recording)])]

/-- Projection of one device used by `get_track_info`. -/
def SessionHandlers.deviceInfo (idx : Nat) (device : Device) : JVal :=
  .obj
    [("index", .num idx),
     ("name", .str device.name),
     ("type", .str (SessionHandlers.get_device_type device)),
     ("is_enabled", .bool device.is_enabled)]

/-- Embeds `SessionHandlers.get_track_info` (session_handlers.py
lines 29–77). -/
def SessionHandlers.get_track_info (s : Song) (track_index : Int) :
    Except String (JVal × Song) :=
  match BaseHandler.get_track s track_index with
  | .error e => .error e
  | .ok track =>
    .ok (.obj
      [("index", .num track_index),
       ("name", .str track.name),
       ("is_audio_track", .bool track.has_audio_input),
       ("is_midi_track", .bool track.has_midi_input),
       ("mute", .bool track.mute),
       ("solo", .bool track.solo),
       ("arm", .bool track.arm),
       ("volume", .num track.volume),
       ("panning", .num track.panning),
       ("clip_slots", .arr ((track.clip_slots.enum.map
           fun p => SessionHandlers.clipSlotInfo p.1 p.2))),
       ("devices", .arr ((track.devices.enum.map
           fun p => SessionHandlers.deviceInfo p.1 p.2)))], s)

/-- The track the host creates for `song.create_midi_track` (modelled host
behaviour: a fresh MIDI track with no clips or devices). -/
def defaultMidiTrack : Track :=
  { name := "MIDI", clip_slots := [], devices := [], has_audio_input := false,
    has_midi_input := true, mute := false, solo := false, arm := false,
    volume := 17/20, panning := 0 }

/-- Embeds `SessionHandlers.create_midi_track` (session_handlers.py
lines 79–93).  The host call `song.create_midi_track(index)` accepts `-1`
(append) or an insertion position in `[0, track_count]` and raises otherwise
(modelled host behaviour). -/
def SessionHandlers.create_midi_track (s : Song) (index : Int) :
    Except String (JVal × Song) :=
  if index = -1 then
    let s' := { s with tracks := s.tracks ++ [defaultMidiTrack] }
    let new_track_index : Nat := s'.tracks.length - 1
    let new_track := s'.tracks.getD new_track_index default
    .ok (.obj [("index", .num new_track_index), ("name", .str new_track.name)], s')
  else if 0 ≤ index ∧ index ≤ (s.tracks.length : Int) then
    let s' := { s with tracks := s.tracks.insertIdx index.toNat defaultMidiTrack }
    let new_track := s'.tracks.getD index.toNat default
    .ok (.obj [("index", .num index), ("name", .str new_track.name)], s')
  else .error "Index out of range"

/-- Embeds `SessionHandlers.set_track_name` (session_handlers.py
lines 95–105). -/
def SessionHandlers.set_track_name (s : Song) (track_index : Int) (name : String) :
    Except String (JVal × Song) :=
  match BaseHandler.get_track s track_index with
  | .error e => .error e
  | .ok track =>
    let s' := { s with tracks := s.tracks.set track_index.toNat { track with name := name } }
    .ok (.obj [("name", .str name)], s')

/-- Embeds `SessionHandlers.set_tempo` (session_handlers.py lines 107–119):
validates, then assigns `song.tempo` and reads it back for the result. -/
def SessionHandlers.set_tempo (s : Song) (tempo : ℚ) : Except String (JVal × Song) :=
  match validate_tempo tempo with
  | .error e => .error e
  | .ok _ =>
    let s' := { s with tempo := tempo }
    .ok (.obj [("tempo", .num s'.tempo)], s')

/-! ## handlers/playback_handlers.py -/

/-- Embeds `PlaybackHandlers.start_playback` (playback_handlers.py
lines 17–26); `song.start_playing()` is the modelled host effect. -/
def PlaybackHandlers.start_playback (s : Song) : Except String (JVal × Song) :=
  let s' := { s with is_playing := true }
  .ok (.obj [("playing", .bool s'.is_playing)], s')

/-- Embeds `PlaybackHandlers.stop_playback` (playback_handlers.py
lines 28–37). -/
def PlaybackHandlers.stop_playback (s : Song) : Except String (JVal × Song) :=
  let s' := { s with is_playing := false }
  .ok (.obj [("playing", .bool s'.is_playing)], s')

/-! ## handlers/clip_handlers.py -/

/-- Embeds `ClipHandlers.create_clip` (clip_handlers.py lines 17–41): bounds
checks, occupied-slot check, then the host's `clip_slot.create_clip(length)`
(modelled as installing a fresh empty MIDI clip of that length) and a read of
the new clip's name and length. -/
def ClipHandlers.create_clip (s : Song) (track_index clip_index : Int) (length : ℚ) :
    Except String (JVal × Song) :=
  if track_index < 0 ∨ (s.tracks.length : Int) ≤ track_index then
    .error "Track index out of range"
  else
    let track := s.tracks.getD track_index.toNat default
    if clip_index < 0 ∨ (track.clip_slots.length : Int) ≤ clip_index then
      .error "Clip index out of range"
    else
      let clip_slot := track.clip_slots.getD clip_index.toNat default
      if clip_slot.has_clip then
        .error "Clip slot already has a clip"
      else
        let clip : Clip :=
          { name := "", length := length, notes := [], is_playing := false,
            is_recording := false }
        let s' := s.setClip track_index.toNat clip_index.toNat (some clip)
        .ok (.obj [("name", .str clip.name), ("length", .num clip.length)], s')

/-- One iteration of the note-conversion loop in `add_notes_to_clip`
(clip_handlers.py lines 63–70): raw `note.get` extraction with the source's
defaults.  A non-dict note raises `AttributeError` at `.get`. -/
def ClipHandlers.noteToLive (note : JVal) :
    Except String (JVal × JVal × JVal × JVal × JVal) :=
  match note with
  | .obj fields =>
    .ok (dictGet fields "pitch" (.num 60),
         dictGet fields "start_time" (.num 0),
         dictGet fields "duration" (.num (1/4)),
         dictGet fields "velocity" (.num 100),
         dictGet fields "mute" (.bool false))
  | _ => .error "AttributeError: object has no attribute get"

/-- Embeds `ClipHandlers.add_notes_to_clip` (clip_handlers.py lines 43–79).
Note that the source performs no call to `validate_note_data`: each note's
fields are extracted with defaults and handed to `clip.set_notes`, and the
result is always `note_count = len(notes)`. -/
def ClipHandlers.add_notes_to_clip (s : Song) (track_index clip_index : Int)
    (notes : List JVal) : Except String (JVal × Song) :=
  if track_index < 0 ∨ (s.tracks.length : Int) ≤ track_index then
    .error "Track index out of range"
  else
    let track := s.tracks.getD track_index.toNat default
    if clip_index < 0 ∨ (track.clip_slots.length : Int) ≤ clip_index then
      .error "Clip index out of range"
    else
      let clip_slot := track.clip_slots.getD clip_index.toNat default
      if ¬ clip_slot.has_clip then
        .error "No clip in slot"
      else
        match notes.mapM ClipHandlers.noteToLive with
        | .error e => .error e
        | .ok live_notes =>
          let clip := clip_slot.clip.getD default
          let s' := s.setClip track_index.toNat clip_index.toNat
            (some { clip with notes := live_notes })
          .ok (.obj [("note_count", .num notes.length)], s')

/-- Embeds `ClipHandlers.set_clip_name` (clip_handlers.py lines 81–104). -/
def ClipHandlers.set_clip_name (s : Song) (track_index clip_index : Int)
    (name : String) : Except String (JVal × Song) :=
  if track_index < 0 ∨ (s.tracks.length : Int) ≤ track_index then
    .error "Track index out of range"
  else
    let track := s.tracks.getD track_index.toNat default
    if clip_index < 0 ∨ (track.clip_slots.length : Int) ≤ clip_index then
      .error "Clip index out of range"
    else
      let clip_slot := track.clip_slots.getD clip_index.toNat default
      if ¬ clip_slot.has_clip then
        .error "No clip in slot"
      else
        let clip := clip_slot.clip.getD default
        let s' := s.setClip track_index.toNat clip_index.toNat
          (some { clip with name := name })
        .ok (.obj [("name", .str name)], s')

/-- Embeds `ClipHandlers.fire_clip` (clip_handlers.py lines 106–129);
`clip_slot.fire()` is the modelled host effect of starting clip playback. -/
def ClipHandlers.fire_clip (s : Song) (track_index clip_index : Int) :
    Except String (JVal × Song) :=
  if track_index < 0 ∨ (s.tracks.length : Int) ≤ track_index then
    .error "Track index out of range"
  else
    let track := s.tracks.getD track_index.toNat default
    if clip_index < 0 ∨ (track.clip_slots.length : Int) ≤ clip_index then
      .error "Clip index out of range"
    else
      let clip_slot := track.clip_slots.getD clip_index.toNat default
      if ¬ clip_slot.has_clip then
        .error "No clip in slot"
      else
        let clip := clip_slot.clip.getD default
        let s' := s.setClip track_index.toNat clip_index.toNat
          (some { clip with is_playing := true })
        .ok (.obj [("fired", .bool true), ("name", .str clip.name)], s')

/-- Embeds `ClipHandlers.stop_clip` (clip_handlers.py lines 131–154). -/
def ClipHandlers.stop_clip (s : Song) (track_index clip_index : Int) :
    Except String (JVal × Song) :=
  if track_index < 0 ∨ (s.tracks.length : Int) ≤ track_index then
    .error "Track index out of range"
  else
    let track := s.tracks.getD track_index.toNat default
    if clip_index < 0 ∨ (track.clip_slots.length : Int) ≤ clip_index then
      .error "Clip index out of range"
    else
      let clip_slot := track.clip_slots.getD clip_index.toNat default
      if ¬ clip_slot.has_clip then
        .error "No clip in slot"
      else
        let clip := clip_slot.clip.getD default
        let s' := s.setClip track_index.toNat clip_index.toNat
          (some { clip with is_playing := false })
        .ok (.obj [("stopped", .bool true), ("name", .str clip.name)], s')

/-! ## Browser object model and handlers/browser_handlers.py

The host's browser is a duck-typed object graph.  Items are identified by
node ids; `items : Nat → BItem` is a total map, so arbitrary (including
cyclic) child structures are representable.  An `Option` field models the
presence or absence of the corresponding Python attribute (`hasattr`). -/

/-- A browser item's attribute surface, as touched by the handlers. -/
structure BItem where
  name : Option String
  uri : Option String
  is_device : Option Bool
  is_loadable : Option Bool
  is_folder : Option Bool
  children : Option (List Nat)
deriving Inhabited

/-- The host browser: its exposed root-category attributes (the model of
`dir(app.browser)` filtered to public names) and the item graph.  Items do
not expose an `instruments` attribute, so the root-category branch of the
URI search fires only at the browser root, as in the host. -/
structure Browser where
  attrs : List (String × Nat)
  items : Nat → BItem

/-- Python `getattr(app.browser, name)` / `hasattr(app.browser, name)`. -/
def Browser.attr (g : Browser) (name : String) : Option Nat :=
  (g.attrs.find? (fun p => p.1 = name)).map Prod.snd

/-- The five root categories accessed by `_find_browser_item_by_uri`
(browser_handlers.py lines 387–395).  `none` when any of the five attribute
accesses would raise (the `AttributeError` is swallowed by the function's
`except`, which returns `None`). -/
def Browser.rootCategories (g : Browser) : Option (List Nat) :=
  match g.attr "instruments" with
  | none => none
  | some i =>
    match g.attr "sounds", g.attr "drums", g.attr "audio_effects", g.attr "midi_effects" with
    | some so, some d, some a, some m => some [i, so, d, a, m]
    | _, _, _, _ => none

/-- Python attribute access without a `hasattr` guard: raises
`AttributeError` when the attribute is absent. -/
def rawAttr {α : Type} (v : Option α) (attrName : String) : Except String α :=
  match v with
  | some x => .ok x
  | none => .error ("AttributeError: " ++ attrName)

/-- Embeds the item-level recursion of `_find_browser_item_by_uri`
(browser_handlers.py lines 369–414) below the browser root: check the
current item's `uri`, stop when the depth budget (`fuel
= max_depth - current_depth`) is exhausted, otherwise recurse into the
(non-empty) children, returning the first hit. -/
def BrowserHandlers.findItemFrom (g : Browser) (uri : String) : Nat → Nat → Option Nat
  | fuel, id =>
    if (g.items id).uri = some uri then some id
    else
      match fuel with
      | 0 => none
      | fuel' + 1 =>
        match (g.items id).children with
        | some cs =>
          if cs.isEmpty then none
          else cs.findSome? (BrowserHandlers.findItemFrom g uri fuel')
        | none => none

/-- Embeds `_find_browser_item_by_uri` applied to the browser root (the entry
call with `current_depth = 0`): the root exposes no `uri` attribute, the
depth guard fires when `max_depth ≤ 0`, and the five root categories are
searched in order at depth 1. -/
def BrowserHandlers.find_browser_item_by_uri (g : Browser) (uri : String)
    (max_depth : Nat) : Option Nat :=
  if max_depth = 0 then none
  else
    match g.rootCategories with
    | some cats => cats.findSome? (BrowserHandlers.findItemFrom g uri (max_depth - 1))
    | none => none

/-- Depth-bounded reachability in the browser item graph along the edges the
search walks: `ReachWithin g id j fuel` says item `j` can be reached from
item `id` by descending through at most `fuel` child links (each taken from
a present, non-empty `children` attribute). -/
inductive ReachWithin (g : Browser) : Nat → Nat → Nat → Prop where
  | refl (id fuel : Nat) : ReachWithin g id id fuel
  | step {id j fuel : Nat} {cs : List Nat} {c : Nat}
      (hcs : (g.items id).children = some cs) (hne : cs.isEmpty = false)
      (hc : c ∈ cs) (h : ReachWithin g c j fuel) : ReachWithin g id j (fuel + 1)

/-- Reachability from the browser root within the search's depth budget:
the depth guard admits the call (`0 < max_depth`), the five root categories
are all exposed, and `j` is reachable from one of them within the remaining
budget. -/
def ReachFromBrowser (g : Browser) (j : Nat) (max_depth : Nat) : Prop :=
  0 < max_depth ∧ ∃ cats, g.rootCategories = some cats ∧
    ∃ c ∈ cats, ReachWithin g c j (max_depth - 1)

/-- The environment seen by the handlers: whether
`control_surface.application()` returns a live application, and the
application's browser (absent models a missing/`None` `browser`
attribute). -/
structure Env where
  app_available : Bool
  browser : Option Browser

/-- Result-item projection with raw attribute accesses, as built by
`get_browser_item` for a found item (browser_handlers.py lines 27–33 and
78–84). -/
def BrowserHandlers.foundItemObj (g : Browser) (id : Nat) : Except String JVal := do
  let name ← rawAttr (g.items id).name "name"
  let is_folder ← rawAttr (g.items id).is_folder "is_folder"
  let is_device ← rawAttr (g.items id).is_device "is_device"
  let is_loadable ← rawAttr (g.items id).is_loadable "is_loadable"
  let uri ← rawAttr (g.items id).uri "uri"
  .ok (.obj
    [("name", .str name), ("is_folder", .bool is_folder),
     ("is_device", .bool is_device), ("is_loadable", .bool is_loadable),
     ("uri", .str uri)])

/-- First child whose `name` (a raw access, as in browser_handlers.py
lines 66–70) matches `part` case-insensitively. -/
def BrowserHandlers.findChildRawName (g : Browser) (part : String) :
    List Nat → Except String (Option Nat)
  | [] => .ok none
  | c :: cs => do
    let n ← rawAttr (g.items c).name "name"
    if n.toLower = part.toLower then .ok (some c)
    else BrowserHandlers.findChildRawName g part cs

/-- The path walk of `get_browser_item` (browser_handlers.py lines 59–74):
descend through children matching each non-empty path part by
case-insensitive name; a missing part produces the structured
`Path part '...' not found` result (`Sum.inl`), not an exception. -/
def BrowserHandlers.walkPath (g : Browser) : Nat → List String →
    Except String (Sum String Nat)
  | current, [] => .ok (.inr current)
  | current, part :: rest =>
    if part = "" then BrowserHandlers.walkPath g current rest
    else do
      let cs ← rawAttr (g.items current).children "children"
      match ← BrowserHandlers.findChildRawName g part cs with
      | some c => BrowserHandlers.walkPath g c rest
      | none => .ok (.inl ("Path part '" ++ part ++ "' not found"))

/-- Embeds `BrowserHandlers.get_browser_item` (browser_handlers.py
lines 12–90).  A non-string truthy `uri` never equals any item's string
`uri` attribute, so the URI search finds nothing for it. -/
def BrowserHandlers.get_browser_item (env : Env) (s : Song) (uri path : JVal) :
    Except String (JVal × Song) :=
  if ¬ env.app_available then .error "Could not access Live application"
  else
    let base : List (String × JVal) := [("uri", uri), ("path", path), ("found", .bool false)]
    let byPath : Except String (JVal × Song) :=
      if path.truthy then
        match path with
        | .str p => do
          let g ← rawAttr env.browser "browser"
          let path_parts := p.splitOn "/"
          let root := (path_parts.headD "").toLower
          let (start, parts) ←
            if root = "instruments" then do
              let i ← rawAttr (g.attr "instruments") "instruments"
              pure (i, path_parts)
            else if root = "sounds" then do
              let i ← rawAttr (g.attr "sounds") "sounds"
              pure (i, path_parts)
            else if root = "drums" then do
              let i ← rawAttr (g.attr "drums") "drums"
              pure (i, path_parts)
            else if root = "audio_effects" then do
              let i ← rawAttr (g.attr "audio_effects") "audio_effects"
              pure (i, path_parts)
            else if root = "midi_effects" then do
              let i ← rawAttr (g.attr "midi_effects") "midi_effects"
              pure (i, path_parts)
            else do
              -- default to instruments and keep the first part in the walk
              let i ← rawAttr (g.attr "instruments") "instruments"
              pure (i, "instruments" :: path_parts)
          match ← BrowserHandlers.walkPath g start parts.tail with
          | .inl err =>
            .ok (.obj (base ++ [("error", .str err)]), s)
          | .inr id => do
            let item ← BrowserHandlers.foundItemObj g id
            .ok (.obj [("uri", uri), ("path", path), ("found", .bool true),
                       ("item", item)], s)
        | _ => .error "AttributeError: split"
      else .ok (.obj base, s)
    if uri.truthy then do
      let g ← rawAttr env.browser "browser"
      let found :=
        match uri with
        | .str u => BrowserHandlers.find_browser_item_by_uri g u 10
        | _ => none
      match found with
      | some id => do
        let item ← BrowserHandlers.foundItemObj g id
        .ok (.obj [("uri", uri), ("path", path), ("found", .bool true),
                   ("item", item)], s)
      | none => byPath
    else byPath

/-- The per-category projection `process_item` of `get_browser_tree`
(browser_handlers.py lines 154–167), with the category name already
overridden by the caller. -/
def BrowserHandlers.processItemNamed (g : Browser) (id : Nat) (nm : String) : JVal :=
  .obj
    [("name", .str nm),
     ("is_folder", .bool (match (g.items id).children with
       | some cs => ¬ cs.isEmpty
       | none => false)),
     ("is_device", .bool ((g.items id).is_device.getD false)),
     ("is_loadable", .bool ((g.items id).is_loadable.getD false)),
     ("uri", match (g.items id).uri with | some u => .str u | none => .null),
     ("children", .arr [])]

/-- The standard category attribute names treated specially by the browser
handlers. -/
def standardCategories : List String :=
  ["instruments", "sounds", "drums", "audio_effects", "midi_effects"]

/-- Embeds `BrowserHandlers.get_browser_tree` (browser_handlers.py
lines 123–242): the five standard categories (with display names fixed up)
followed by any other exposed category whose item has a `children` or `name`
attribute. -/
def BrowserHandlers.get_browser_tree (env : Env) (s : Song) (category_type : String) :
    Except String (JVal × Song) :=
  if ¬ env.app_available then .error "Could not access Live application"
  else
    match env.browser with
    | none => .error "Browser is not available in the Live application"
    | some g =>
      let browser_attrs := g.attrs.map Prod.fst
      let std (attrName display : String) : List JVal :=
        if category_type = "all" ∨ category_type = attrName then
          match g.attr attrName with
          | some id => [BrowserHandlers.processItemNamed g id display]
          | none => []
        else []
      let extras :=
        (g.attrs.filter fun p =>
          ¬ standardCategories.contains p.1 ∧
          (category_type = "all" ∨ category_type = p.1) ∧
          ((g.items p.2).children.isSome ∨ (g.items p.2).name.isSome)).map
          fun p => BrowserHandlers.processItemNamed g p.2 p.1.capitalize
      let categories :=
        std "instruments" "Instruments" ++ std "sounds" "Sounds" ++
        std "drums" "Drums" ++ std "audio_effects" "Audio Effects" ++
        std "midi_effects" "MIDI Effects" ++ extras
      .ok (.obj
        [("type", .str category_type),
         ("categories", .arr categories),
         ("available_categories", .arr (browser_attrs.map JVal.str))], s)

/-- First child whose guarded `name` matches `part` case-insensitively
(browser_handlers.py lines 324–329, `hasattr(child, "name")`). -/
def BrowserHandlers.findChildGuardedName (g : Browser) (part : String)
    (cs : List Nat) : Option Nat :=
  cs.find? fun c =>
    match (g.items c).name with
    | some n => n.toLower = part.toLower
    | none => false

/-- The path walk of `get_browser_items_at_path` (browser_handlers.py
lines 311–336); `before` is the list of already-consumed path parts, used in
the `has no children` message.  Both failures are structured results
(`Sum.inl`), not exceptions. -/
def BrowserHandlers.walkItemsPath (g : Browser) :
    Nat → List String → List String → Sum String Nat
  | current, _, [] => .inr current
  | current, before, part :: rest =>
    if part = "" then BrowserHandlers.walkItemsPath g current (before ++ [part]) rest
    else
      match (g.items current).children with
      | none =>
        .inl ("Item at '" ++ String.intercalate "/" before ++ "' has no children")
      | some cs =>
        match BrowserHandlers.findChildGuardedName g part cs with
        | some c => BrowserHandlers.walkItemsPath g c (before ++ [part]) rest
        | none => .inl ("Path part '" ++ part ++ "' not found")

/-- Child projection used in the final item listing of
`get_browser_items_at_path` (browser_handlers.py lines 340–349). -/
def BrowserHandlers.childInfo (g : Browser) (c : Nat) : JVal :=
  .obj
    [("name", .str ((g.items c).name.getD "Unknown")),
     ("is_folder", .bool (match (g.items c).children with
       | some cs => ¬ cs.isEmpty
       | none => false)),
     ("is_device", .bool ((g.items c).is_device.getD false)),
     ("is_loadable", .bool ((g.items c).is_loadable.getD false)),
     ("uri", match (g.items c).uri with | some u => .str u | none => .null)]

/-- Embeds `BrowserHandlers.get_browser_items_at_path` (browser_handlers.py
lines 244–367). -/
def BrowserHandlers.get_browser_items_at_path (env : Env) (s : Song) (path : String) :
    Except String (JVal × Song) :=
  if ¬ env.app_available then .error "Could not access Live application"
  else
    match env.browser with
    | none => .error "Browser is not available in the Live application"
    | some g =>
      let browser_attrs := g.attrs.map Prod.fst
      let path_parts := path.splitOn "/"
      if path_parts.isEmpty then .error "Invalid path"
      else
        let root_category := (path_parts.headD "").toLower
        let start : Option Nat :=
          if root_category = "instruments" ∧ (g.attr "instruments").isSome then
            g.attr "instruments"
          else if root_category = "sounds" ∧ (g.attr "sounds").isSome then
            g.attr "sounds"
          else if root_category = "drums" ∧ (g.attr "drums").isSome then
            g.attr "drums"
          else if root_category = "audio_effects" ∧ (g.attr "audio_effects").isSome then
            g.attr "audio_effects"
          else if root_category = "midi_effects" ∧ (g.attr "midi_effects").isSome then
            g.attr "midi_effects"
          else
            (g.attrs.find? fun p => p.1.toLower = root_category).map Prod.snd
        match start with
        | none =>
          .ok (.obj
            [("path", .str path),
             ("error", .str ("Unknown or unavailable category: " ++ root_category)),
             ("available_categories", .arr (browser_attrs.map JVal.str)),
             ("items", .arr [])], s)
        | some c0 =>
          match BrowserHandlers.walkItemsPath g c0 [path_parts.headD ""] path_parts.tail with
          | .inl err =>
            .ok (.obj [("path", .str path), ("error", .str err), ("items", .arr [])], s)
          | .inr cur =>
            let items :=
              match (g.items cur).children with
              | some cs => cs.map (BrowserHandlers.childInfo g)
              | none => []
            .ok (.obj
              [("path", .str path),
               ("name", .str ((g.items cur).name.getD "Unknown")),
               ("uri", match (g.items cur).uri with | some u => .str u | none => .null),
               ("is_folder", .bool (match (g.items cur).children with
                 | some cs => ¬ cs.isEmpty
                 | none => false)),
               ("is_device", .bool ((g.items cur).is_device.getD false)),
               ("is_loadable", .bool ((g.items cur).is_loadable.getD false)),
               ("items", .arr items)], s)

/-- Embeds `BrowserHandlers.load_browser_item` (browser_handlers.py
lines 92–121): track validation, URI lookup (depth 10), then the host
effects of selecting the track and loading the item.  On the final raw
`item.name` access failing, the source keeps the already-performed host
mutations while this `Except` model rolls them back; no claim depends on
that corner. -/
def BrowserHandlers.load_browser_item (env : Env) (s : Song) (track_index : Int)
    (item_uri : String) : Except String (JVal × Song) := do
  let track ← BaseHandler.get_track s track_index
  let g ← rawAttr env.browser "browser"
  match BrowserHandlers.find_browser_item_by_uri g item_uri 10 with
  | none => .error ("Browser item with URI '" ++ item_uri ++ "' not found")
  | some item => do
    let s' := { s with selected_track := some track_index.toNat }
    let s'' := { s' with loaded_items := s'.loaded_items ++ [item_uri] }
    let item_name ← rawAttr (g.items item).name "name"
    .ok (.obj
      [("loaded", .bool true), ("item_name", .str item_name),
       ("track_name", .str track.name), ("uri", .str item_uri)], s'')

/-! ## core/main.py — `_process_command`

Parameter extraction mirrors Python semantics at the use sites: a missing key
yields the source's default; a JSON number with a fractional part used as a
list index, or a value of the wrong type, raises a `TypeError` that the
dispatch boundary converts into an error envelope.  Booleans count as the
integers 0/1 as in Python. -/

/-- Extract an integer parameter (used as index) in the Python style. -/
def getIntParam (params : JVal) (key : String) (default : Int) : Except String Int :=
  match params with
  | .obj fields =>
    match jLookup fields key with
    | none => .ok default
    | some (.num q) =>
      if q.den = 1 then .ok q.num else .error "TypeError: list indices must be integers"
    | some (.bool b) => .ok (if b then 1 else 0)
    | some _ => .error "TypeError: list indices must be integers"
  | _ => .error "AttributeError: object has no attribute get"

/-- Extract a numeric parameter (tempo, clip length) in the Python style. -/
def getRatParam (params : JVal) (key : String) (default : ℚ) : Except String ℚ :=
  match params with
  | .obj fields =>
    match jLookup fields key with
    | none => .ok default
    | some (.num q) => .ok q
    | some (.bool b) => .ok (if b then 1 else 0)
    | some _ => .error "TypeError: unorderable types"
  | _ => .error "AttributeError: object has no attribute get"

/-- Extract a string parameter in the Python style. -/
def getStrParam (params : JVal) (key : String) (default : String) : Except String String :=
  match params with
  | .obj fields =>
    match jLookup fields key with
    | none => .ok default
    | some (.str s) => .ok s
    | some _ => .error "TypeError: expected str"
  | _ => .error "AttributeError: object has no attribute get"

/-- Extract a list parameter (the notes batch) in the Python style. -/
def getListParam (params : JVal) (key : String) : Except String (List JVal) :=
  match params with
  | .obj fields =>
    match jLookup fields key with
    | none => .ok []
    | some (.arr xs) => .ok xs
    | some _ => .error "TypeError: object is not iterable"
  | _ => .error "AttributeError: object has no attribute get"

/-- Extract a raw parameter (`params.get(key, default)`). -/
def getParam (params : JVal) (key : String) (default : JVal) : Except String JVal :=
  match params with
  | .obj fields => .ok (dictGet fields key default)
  | _ => .error "AttributeError: object has no attribute get"

/-- The response dictionary built by `_process_command` (core/main.py
lines 226–227 and 360–367): initialised to `{status: success, result: {}}`;
an error overwrites `status` and adds `message`, leaving the initial
`result` in place. -/
structure PResponse where
  status : String
  result : JVal
  message : Option String

/-- The envelope after a successful dispatch. -/
def successResponse (r : JVal) : PResponse :=
  { status := "success", result := r, message := none }

/-- The envelope after a caught exception or an unknown command. -/
def errorResponse (m : String) : PResponse :=
  { status := "error", result := .obj [], message := some m }

/-- The dispatch boundary: a handler outcome becomes an envelope; an error
leaves the song untouched (every embedded failure path raises before its
first mutation). -/
def wrapDispatch (s : Song) (r : Except String (JVal × Song)) : PResponse × Song :=
  match r with
  | .ok (v, s') => (successResponse v, s')
  | .error e => (errorResponse e, s)

/-- The state-mutating command vocabulary marshalled onto the host's main
thread (core/main.py lines 237–249). -/
def mutatingCommands : List String :=
  ["create_midi_track", "set_track_name", "create_clip", "add_notes_to_clip",
   "set_clip_name", "set_tempo", "fire_clip", "stop_clip", "start_playback",
   "stop_playback", "load_browser_item"]

/-- The body of `main_thread_task` (core/main.py lines 254–324): parameter
extraction with the source's defaults, then the handler call.  The
`load_instrument_or_effect` branch is kept although the outer dispatch list
never routes to it (dead code in the source too).  The queue round-trip and
its 10-second timeout are real-time behaviour outside this embedding: the
task is modelled as executing and its envelope as being received. -/
def runMainThreadTask (env : Env) (s : Song) (t : String) (params : JVal) :
    Except String (JVal × Song) := do
  if t = "create_midi_track" then
    let index ← getIntParam params "index" (-1)
    SessionHandlers.create_midi_track s index
  else if t = "set_track_name" then
    let track_index ← getIntParam params "track_index" 0
    let name ← getStrParam params "name" ""
    SessionHandlers.set_track_name s track_index name
  else if t = "create_clip" then
    let track_index ← getIntParam params "track_index" 0
    let clip_index ← getIntParam params "clip_index" 0
    let length ← getRatParam params "length" 4
    ClipHandlers.create_clip s track_index clip_index length
  else if t = "add_notes_to_clip" then
    let track_index ← getIntParam params "track_index" 0
    let clip_index ← getIntParam params "clip_index" 0
    let notes ← getListParam params "notes"
    ClipHandlers.add_notes_to_clip s track_index clip_index notes
  else if t = "set_clip_name" then
    let track_index ← getIntParam params "track_index" 0
    let clip_index ← getIntParam params "clip_index" 0
    let name ← getStrParam params "name" ""
    ClipHandlers.set_clip_name s track_index clip_index name
  else if t = "set_tempo" then
    let tempo ← getRatParam params "tempo" 120
    SessionHandlers.set_tempo s tempo
  else if t = "fire_clip" then
    let track_index ← getIntParam params "track_index" 0
    let clip_index ← getIntParam params "clip_index" 0
    ClipHandlers.fire_clip s track_index clip_index
  else if t = "stop_clip" then
    let track_index ← getIntParam params "track_index" 0
    let clip_index ← getIntParam params "clip_index" 0
    ClipHandlers.stop_clip s track_index clip_index
  else if t = "start_playback" then
    PlaybackHandlers.start_playback s
  else if t = "stop_playback" then
    PlaybackHandlers.stop_playback s
  else if t = "load_instrument_or_effect" then
    let track_index ← getIntParam params "track_index" 0
    let uri ← getStrParam params "uri" ""
    BrowserHandlers.load_browser_item env s track_index uri
  else if t = "load_browser_item" then
    let track_index ← getIntParam params "track_index" 0
    let item_uri ← getStrParam params "item_uri" ""
    BrowserHandlers.load_browser_item env s track_index item_uri
  else
    -- `result` stays `None`; the queue reports success with a null result
    .ok (.null, s)

/-- Error text for `"Unknown command: " + command_type` when `command_type`
is not a string (a Python `TypeError` caught by the dispatch boundary). -/
def strConcatTypeMismatch : String := "TypeError: can only concatenate str to str"

/-- Embeds `AbletonMCP._process_command` (core/main.py lines 221–369) for a
command dictionary: extract `type` (default `""`) and `params`
(default `{}`), route read-only commands directly, marshal state-mutating
commands through the main-thread task, and turn any raised exception into an
error envelope.  An unrecognised string type produces
`Unknown command: <type>` with no handler invoked. -/
def processCommand (env : Env) (s : Song) (command : List (String × JVal)) :
    PResponse × Song :=
  let command_type := dictGet command "type" (.str "")
  let params := dictGet command "params" (.obj [])
  match command_type with
  | .str t =>
    if t = "get_session_info" then
      wrapDispatch s (SessionHandlers.get_session_info s)
    else if t = "get_track_info" then
      wrapDispatch s (do
        let track_index ← getIntParam params "track_index" 0
        SessionHandlers.get_track_info s track_index)
    else if t ∈ mutatingCommands then
      wrapDispatch s (runMainThreadTask env s t params)
    else if t = "get_browser_item" then
      wrapDispatch s (do
        let uri ← getParam params "uri" .null
        let path ← getParam params "path" .null
        BrowserHandlers.get_browser_item env s uri path)
    else if t = "get_browser_tree" then
      wrapDispatch s (do
        let category_type ← getStrParam params "category_type" "all"
        BrowserHandlers.get_browser_tree env s category_type)
    else if t = "get_browser_items_at_path" then
      wrapDispatch s (do
        let path ← getStrParam params "path" ""
        BrowserHandlers.get_browser_items_at_path env s path)
    else
      (errorResponse ("Unknown command: " ++ t), s)
  | _ => (errorResponse strConcatTypeMismatch, s)

/-- The command vocabulary `_process_command` recognises: the two read-only
session commands, the eleven main-thread commands, and the three browser
queries. -/
def knownCommands : List String :=
  ["get_session_info", "get_track_info", "create_midi_track", "set_track_name",
   "create_clip", "add_notes_to_clip", "set_clip_name", "set_tempo",
   "fire_clip", "stop_clip", "start_playback", "stop_playback",
   "load_browser_item", "get_browser_item", "get_browser_tree",
   "get_browser_items_at_path"]

/-! ## core/main.py — `_handle_client` receive loop, and a model of
`json.loads`

The per-connection loop appends each received chunk to a text buffer,
attempts a full JSON parse, keeps the buffer unchanged on parse failure and
clears it after a successful parse (core/main.py lines 145–219; the same
logic appears in core/client.py lines 46–112). -/

/-- One client connection's receive loop, abstracted over the framing parser
(the repository calls the Python standard library's `json.loads`): the list
of parsed commands produced from a sequence of received chunks, starting
from the given buffer. -/
def receiveLoop (parse : String → Option JVal) :
    List String → String → List JVal
  | [], _ => []
  | chunk :: rest, buffer =>
    let buffer := buffer ++ chunk
    match parse buffer with
    | some command => command :: receiveLoop parse rest ""
    | none => receiveLoop parse rest buffer

/-- Whitespace skipped by the JSON grammar. -/
def jsonSkipWs : List Char → List Char
  | c :: rest =>
    if c = ' ' ∨ c = '\t' ∨ c = '\n' ∨ c = '\r' then jsonSkipWs rest else c :: rest
  | [] => []

/-- Decoding of a JSON string escape character. -/
def jsonEscChar (e : Char) : Option Char :=
  if e = '"' then some '"'
  else if e = '\\' then some '\\'
  else if e = '/' then some '/'
  else if e = 'n' then some '\n'
  else if e = 't' then some '\t'
  else if e = 'r' then some '\r'
  else none

/-- String-body parser: the characters up to the closing quote, decoding the
common escapes (unicode escapes are outside the modelled subset; the
protocol's payloads do not use them). -/
def jsonParseStringBody : List Char → Option (String × List Char)
  | [] => none
  | c :: rest =>
    if c = '"' then some ("", rest)
    else if c = '\\' then
      match rest with
      | [] => none
      | e :: rest' =>
        match jsonEscChar e with
        | none => none
        | some d =>
          match jsonParseStringBody rest' with
          | some (s, rem) => some (String.singleton d ++ s, rem)
          | none => none
    else
      match jsonParseStringBody rest with
      | some (s, rem) => some (String.singleton c ++ s, rem)
      | none => none

/-- Longest digit run at the head of the input. -/
def jsonDigitSpan : List Char → List Char × List Char
  | [] => ([], [])
  | c :: rest =>
    if c.isDigit then
      let (ds, rem) := jsonDigitSpan rest
      (c :: ds, rem)
    else ([], c :: rest)

/-- Numeric value of a digit run. -/
def digitsVal (ds : List Char) : Nat :=
  ds.foldl (fun a c => a * 10 + (c.toNat - '0'.toNat)) 0

/-- Number parser: optional minus, integer part without leading zeros,
optional fractional part (exponents are outside the modelled subset). -/
def jsonParseNumber (input : List Char) : Option (JVal × List Char) :=
  let (neg, input1) :=
    match input with
    | '-' :: r => (true, r)
    | _ => (false, input)
  let (ds, rem) := jsonDigitSpan input1
  if ds.isEmpty then none
  else if ds.length > 1 ∧ ds.headD '0' = '0' then none
  else
    match rem with
    | '.' :: rem1 =>
      let (fs, rem2) := jsonDigitSpan rem1
      if fs.isEmpty then none
      else
        let q : ℚ := (digitsVal ds : ℚ) + (digitsVal fs : ℚ) / ((10 : ℚ) ^ fs.length)
        some (JVal.num (if neg then -q else q), rem2)
    | _ =>
      let q : ℚ := (digitsVal ds : ℚ)
      some (JVal.num (if neg then -q else q), rem)

/-- Literal matcher for `true` / `false` / `null` tails. -/
def jsonExpect : List Char → List Char → Option (List Char)
  | [], rest => some rest
  | l :: ls, c :: rest => if c = l then jsonExpect ls rest else none
  | _ :: _, [] => none

mutual

/-- Value parser of the `json.loads` model.  The fuel bounds member count
plus nesting depth; `jsonLoads` supplies `length + 1`, sufficient because
every member and every nesting level consumes input. -/
def jsonParseValue : Nat → List Char → Option (JVal × List Char)
  | 0, _ => none
  | fuel + 1, input =>
    match jsonSkipWs input with
    | [] => none
    | c :: rest =>
      if c = '"' then
        match jsonParseStringBody rest with
        | some (s, rem) => some (JVal.str s, rem)
        | none => none
      else if c = '{' then jsonParseObjBody fuel rest true
      else if c = '[' then jsonParseArrBody fuel rest true
      else if c = 't' then
        match jsonExpect ['r', 'u', 'e'] rest with
        | some rem => some (JVal.bool true, rem)
        | none => none
      else if c = 'f' then
        match jsonExpect ['a', 'l', 's', 'e'] rest with
        | some rem => some (JVal.bool false, rem)
        | none => none
      else if c = 'n' then
        match jsonExpect ['u', 'l', 'l'] rest with
        | some rem => some (JVal.null, rem)
        | none => none
      else jsonParseNumber (c :: rest)

/-- Object-member parser: `atStart` permits the immediate close of an empty
object; trailing commas are rejected as in Python. -/
def jsonParseObjBody : Nat → List Char → Bool → Option (JVal × List Char)
  | 0, _, _ => none
  | fuel + 1, input, atStart =>
    match jsonSkipWs input with
    | [] => none
    | c :: rest =>
      if atStart ∧ c = '}' then some (JVal.obj [], rest)
      else if c = '"' then
        match jsonParseStringBody rest with
        | none => none
        | some (k, rem1) =>
          match jsonSkipWs rem1 with
          | ':' :: rem2 =>
            match jsonParseValue fuel rem2 with
            | none => none
            | some (v, rem3) =>
              match jsonSkipWs rem3 with
              | ',' :: rem4 =>
                match jsonParseObjBody fuel rem4 false with
                | some (JVal.obj kvs, r) => some (JVal.obj ((k, v) :: kvs), r)
                | _ => none
              | '}' :: rem4 => some (JVal.obj [(k, v)], rem4)
              | _ => none
          | _ => none
      else none

/-- Array-element parser, analogous to the object-member parser. -/
def jsonParseArrBody : Nat → List Char → Bool → Option (JVal × List Char)
  | 0, _, _ => none
  | fuel + 1, input, atStart =>
    match jsonSkipWs input with
    | [] => none
    | c :: rest =>
      if atStart ∧ c = ']' then some (JVal.arr [], rest)
      else
        match jsonParseValue fuel (c :: rest) with
        | none => none
        | some (v, rem1) =>
          match jsonSkipWs rem1 with
          | ',' :: rem2 =>
            match jsonParseArrBody fuel rem2 false with
            | some (JVal.arr xs, r) => some (JVal.arr (v :: xs), r)
            | _ => none
          | ']' :: rem2 => some (JVal.arr [v], rem2)
          | _ => none

end

/-- Model of the Python standard library's `json.loads` on the JSON subset
this protocol exchanges (objects, arrays, strings with common escapes,
decimal numbers, constants): `some` on a complete document (trailing
whitespace allowed), `none` where `json.loads` raises `ValueError`. -/
def jsonLoads (s : String) : Option JVal :=
  match jsonParseValue (s.length + 1) s.data with
  | some (v, rem) => if (jsonSkipWs rem).isEmpty then some v else none
  | none => none

/-! ## MCP_Server/core/connection.py — the Connection Client -/

/-- The adapter-side connection state: `sock = none` models the Python
`self.sock is None` state (socket handles are opaque numbers here). -/
structure AbletonConnection where
  host : String
  port : Nat
  sock : Option Nat

/-- Embeds `AbletonConnection.connect` (connection.py lines 21–34).  The
environment argument `newSock` is the outcome the OS would give a fresh
`socket.connect` attempt (`none` = the attempt raises). -/
def AbletonConnection.connect (c : AbletonConnection) (newSock : Option Nat) :
    Bool × AbletonConnection :=
  match c.sock with
  | some _ => (true, c)
  | none =>
    match newSock with
    | some sk => (true, { c with sock := some sk })
    | none => (false, { c with sock := none })

/-- Python `str()` of the object passed to `Exception(...)` in
`send_command`'s error path. -/
def pyMessageText : JVal → String
  | .str s => s
  | .num q => toString q
  | .bool true => "True"
  | .bool false => "False"
  | .null => "None"
  | .arr _ => "<list>"
  | .obj _ => "<dict>"

/-- Embeds the response handling of `AbletonConnection.send_command`
(connection.py lines 93–170), with the transport steps (sendall, chunked
receive, `json.loads`) abstracted into the already-parsed `response`
argument.  An `error`-status envelope raises `Exception(message)`, which the
function's own generic `except` catches: it sets `self.sock = None` and
re-raises the wrapped communication error.  Any other envelope returns only
`response.get("result", dict())`, keeping the socket. -/
def AbletonConnection.send_command (c : AbletonConnection) (response : JVal) :
    Except String JVal × AbletonConnection :=
  match response with
  | .obj fields =>
    let isError :=
      match jLookup fields "status" with
      | some (.str st) => st == "error"
      | _ => false
    if isError then
      let msg := dictGet fields "message" (.str "Unknown error from Ableton")
      (.error ("Communication error with Ableton: " ++ pyMessageText msg),
       { c with sock := none })
    else
      (.ok (dictGet fields "result" (.obj [])), c)
  | _ =>
    -- `response.get` on a non-dict raises `AttributeError`; the generic
    -- handler invalidates the socket and wraps the error
    (.error "Communication error with Ableton: AttributeError",
     { c with sock := none })

/-! ## Concrete fixtures used by the witness theorems -/

/-- A concrete clip occupying a slot. -/
def sampleClip : Clip :=
  { name := "Groove", length := 4, notes := [], is_playing := false,
    is_recording := false }

/-- A concrete track: slot 0 occupied by `sampleClip`, slot 1 empty. -/
def sampleTrack : Track :=
  { name := "Bass", clip_slots := [⟨some sampleClip⟩, ⟨none⟩], devices := [],
    has_audio_input := false, has_midi_input := true, mute := false,
    solo := false, arm := false, volume := 1/2, panning := 0 }

/-- A concrete one-track song. -/
def sampleSong : Song :=
  { tempo := 120, signature_numerator := 4, signature_denominator := 4,
    tracks := [sampleTrack], return_tracks := [], master_volume := 1/2,
    master_panning := 0, is_playing := false, selected_track := none,
    loaded_items := [] }

/-- A concrete browser item graph containing a cycle (0 → 5 → 0): node 5
carries URI `u5`. -/
def sampleItems : Nat → BItem
  | 0 => { name := some "Instruments", uri := none, is_device := some false,
           is_loadable := some false, is_folder := some true, children := some [5] }
  | 5 => { name := some "Lead", uri := some "u5", is_device := some true,
           is_loadable := some true, is_folder := some false, children := some [0] }
  | _ => { name := some "Empty", uri := none, is_device := some false,
           is_loadable := some false, is_folder := some false, children := none }

/-- A concrete browser over `sampleItems` with the five standard root
categories. -/
def sampleBrowser : Browser :=
  { attrs := [("instruments", 0), ("sounds", 1), ("drums", 2),
              ("audio_effects", 3), ("midi_effects", 4)],
    items := sampleItems }

/-- A concrete environment with a live application and browser. -/
def sampleEnv : Env := { app_available := true, browser := some sampleBrowser }

/-- The track- or clip-addressed commands whose handlers bounds-check
`track_index` before any host mutation. -/
def trackIndexedCommands : List String :=
  ["get_track_info", "set_track_name", "create_clip", "add_notes_to_clip",
   "set_clip_name", "fire_clip", "stop_clip", "load_browser_item"]

/-! ## Theorems settling the claims -/

/-- C2: for every command dictionary, the response produced by
`_process_command` carries a `status` field equal to `"success"` or
`"error"`; every handler failure is converted into an error envelope at the
dispatch boundary (the embedding is a total function: `_process_command`
itself never raises for a dictionary input). -/
theorem c2_process_command_status (env : Env) (s : Song)
    (command : List (String × JVal)) :
    (processCommand env s command).1.status = "success" ∨
    (processCommand env s command).1.status = "error" := by
  have hw : ∀ (s₀ : Song) (r : Except String (JVal × Song)),
      (wrapDispatch s₀ r).1.status = "success" ∨
      (wrapDispatch s₀ r).1.status = "error" := by
    intro s₀ r
    cases r with
    | ok p => exact Or.inl rfl
    | error e => exact Or.inr rfl
  unfold processCommand
  cases dictGet command "type" (.str "") with
  | str t =>
    dsimp only
    split_ifs <;> first | exact hw _ _ | exact Or.inr rfl
  | null => exact Or.inr rfl
  | bool b => exact Or.inr rfl
  | num q => exact Or.inr rfl
  | arr xs => exact Or.inr rfl
  | obj fields => exact Or.inr rfl

/-- C3: a command envelope whose string `type` is outside the recognised
vocabulary yields exactly the `Unknown command: <type>` error envelope, with
no handler invoked and the song state untouched (so the next command on the
connection is processed from the same state). -/
theorem c3_unknown_command (env : Env) (s : Song) (t : String)
    (command : List (String × JVal))
    (htype : dictGet command "type" (.str "") = .str t)
    (h : t ∉ knownCommands) :
    processCommand env s command = (errorResponse ("Unknown command: " ++ t), s) := by
  simp only [knownCommands, List.mem_cons, List.not_mem_nil, not_or] at h
  obtain ⟨h1, h2, h3, h4, h5, h6, h7, h8, h9, h10, h11, h12, h13, h14, h15, h16, -⟩ := h
  have hmut : t ∉ mutatingCommands := by
    simp only [mutatingCommands, List.mem_cons, List.not_mem_nil, not_or]
    exact ⟨h3, h4, h5, h6, h7, h8, h9, h10, h11, h12, h13, not_false⟩
  unfold processCommand
  rw [htype]
  dsimp only
  rw [if_neg h1, if_neg h2, if_neg hmut, if_neg h14, if_neg h15, if_neg h16]

/-- Witness for C3 at the concrete type `"bogus_command"` against the sample
state: the hypotheses hold by computation and the unknown-command envelope
comes back with the state unchanged. -/
theorem c3_unknown_command_witness :
    processCommand sampleEnv sampleSong [("type", .str "bogus_command")] =
      (errorResponse ("Unknown command: " ++ "bogus_command"), sampleSong) :=
  c3_unknown_command sampleEnv sampleSong "bogus_command"
    [("type", .str "bogus_command")] rfl (by decide)

/-- C4: `set_tempo` accepts exactly the closed interval `[20, 999]`: inside
it the song tempo is set and the success envelope carries `tempo = t`;
outside it the validator's `ValueError` is surfaced as an error envelope and
the song tempo is unchanged. -/
theorem c4_set_tempo_interval (env : Env) (s : Song) (t : ℚ) :
    (20 ≤ t ∧ t ≤ 999 →
      processCommand env s
          [("type", .str "set_tempo"), ("params", .obj [("tempo", .num t)])] =
        (successResponse (.obj [("tempo", .num t)]), { s with tempo := t }))
  ∧ (¬ (20 ≤ t ∧ t ≤ 999) →
      processCommand env s
          [("type", .str "set_tempo"), ("params", .obj [("tempo", .num t)])] =
        (errorResponse ("Tempo must be between 20.0 and 999.0, got " ++ toString t), s)) := by
  constructor <;> intro h
  · have hv : validate_tempo t = .ok true := by
      unfold validate_tempo
      exact if_neg (not_not_intro h)
    simp [processCommand, runMainThreadTask, SessionHandlers.set_tempo, hv,
      getRatParam, dictGet, jLookup, wrapDispatch, mutatingCommands,
      successResponse, Bind.bind, Except.bind]
  · have hv : validate_tempo t =
        .error ("Tempo must be between 20.0 and 999.0, got " ++ toString t) := by
      unfold validate_tempo
      exact if_pos h
    simp [processCommand, runMainThreadTask, SessionHandlers.set_tempo, hv,
      getRatParam, dictGet, jLookup, wrapDispatch, mutatingCommands,
      errorResponse, Bind.bind, Except.bind]

/-- Witness for C4: the endpoint `t = 20` is accepted (tempo set, success
envelope) and the out-of-range `t = 1000` is rejected with the validator's
message and an unchanged song. -/
theorem c4_set_tempo_interval_witness :
    (processCommand sampleEnv sampleSong
        [("type", .str "set_tempo"), ("params", .obj [("tempo", .num 20)])] =
      (successResponse (.obj [("tempo", .num 20)]), { sampleSong with tempo := 20 }))
  ∧ (processCommand sampleEnv sampleSong
        [("type", .str "set_tempo"), ("params", .obj [("tempo", .num 1000)])] =
      (errorResponse ("Tempo must be between 20.0 and 999.0, got " ++ toString (1000 : ℚ)),
        sampleSong)) :=
  ⟨(c4_set_tempo_interval sampleEnv sampleSong 20).1 (by norm_num),
   (c4_set_tempo_interval sampleEnv sampleSong 1000).2 (by norm_num)⟩

/-- C5: `create_clip` on a slot that already holds a clip produces the
`Clip slot already has a clip` error envelope and returns the song
unchanged — in particular the existing clip (its name and length included)
is exactly as before, since the occupied-slot check precedes the host's
clip-creation call. -/
theorem c5_create_clip_occupied (env : Env) (s : Song) (ti ci : Int) (len : ℚ)
    (clip : Clip)
    (hti : 0 ≤ ti ∧ ti < (s.tracks.length : Int))
    (hci : 0 ≤ ci ∧ ci < ((s.tracks.getD ti.toNat default).clip_slots.length : Int))
    (hclip : ((s.tracks.getD ti.toNat default).clip_slots.getD ci.toNat default).clip
      = some clip) :
    processCommand env s
        [("type", .str "create_clip"),
         ("params", .obj [("track_index", .num ti), ("clip_index", .num ci),
                          ("length", .num len)])] =
      (errorResponse "Clip slot already has a clip", s) := by
  have h1 : ¬ (ti < 0 ∨ (s.tracks.length : Int) ≤ ti) := by
    push_neg
    exact ⟨hti.1, hti.2⟩
  have h2 : ¬ (ci < 0 ∨ ((s.tracks.getD ti.toNat default).clip_slots.length : Int) ≤ ci) := by
    push_neg
    exact ⟨hci.1, hci.2⟩
  have h3 : ((s.tracks.getD ti.toNat default).clip_slots.getD ci.toNat default).has_clip
      = true := by
    rw [ClipSlot.has_clip, hclip]
    rfl
  simp only [List.getD_eq_getElem?_getD] at h2 h3
  simp [processCommand, runMainThreadTask, ClipHandlers.create_clip, getIntParam,
    getRatParam, dictGet, jLookup, wrapDispatch, mutatingCommands, errorResponse,
    Bind.bind, Except.bind, h1, h2, h3, Rat.den_intCast, Rat.num_intCast]

/-- Witness for C5 on the sample song, whose slot `(0, 0)` holds
`sampleClip`: the occupied-slot error comes back and the state is
unchanged. -/
theorem c5_create_clip_occupied_witness :
    processCommand sampleEnv sampleSong
        [("type", .str "create_clip"),
         ("params", .obj [("track_index", .num 0), ("clip_index", .num 0),
                          ("length", .num 8)])] =
      (errorResponse "Clip slot already has a clip", sampleSong) :=
  c5_create_clip_occupied sampleEnv sampleSong 0 0 8 sampleClip
    (by decide) (by decide) rfl

/-- C6: every track- or clip-addressed command invoked with an out-of-range
`track_index` returns the `Track index out of range` error envelope and
performs no mutation of the song, because the bounds check precedes every
host-mutating call. -/
theorem c6_track_index_out_of_range (env : Env) (s : Song) (t : String) (ti : Int)
    (ht : t ∈ trackIndexedCommands)
    (hti : ti < 0 ∨ (s.tracks.length : Int) ≤ ti) :
    processCommand env s
        [("type", .str t), ("params", .obj [("track_index", .num ti)])] =
      (errorResponse "Track index out of range", s) := by
  have herr : validate_track_index ti s = .error "Track index out of range" := by
    unfold validate_track_index
    exact if_pos hti
  fin_cases ht <;>
    simp [processCommand, runMainThreadTask, SessionHandlers.get_track_info,
      SessionHandlers.set_track_name, ClipHandlers.create_clip,
      ClipHandlers.add_notes_to_clip, ClipHandlers.set_clip_name,
      ClipHandlers.fire_clip, ClipHandlers.stop_clip,
      BrowserHandlers.load_browser_item, BaseHandler.get_track, herr, hti,
      getIntParam, getStrParam, getListParam, getRatParam, dictGet, jLookup,
      wrapDispatch, mutatingCommands, errorResponse, Bind.bind, Except.bind,
      Rat.den_intCast, Rat.num_intCast]

/-- Witness for C6: `fire_clip` with `track_index = 5` against the
single-track sample song errors with the range message and leaves the song
as it was. -/
theorem c6_track_index_out_of_range_witness :
    processCommand sampleEnv sampleSong
        [("type", .str "fire_clip"), ("params", .obj [("track_index", .num 5)])] =
      (errorResponse "Track index out of range", sampleSong) :=
  c6_track_index_out_of_range sampleEnv sampleSong "fire_clip" 5
    (by decide) (by decide)

/-- C1: the claim says `add_notes_to_clip` rejects a note that is missing
`pitch`, `start_time` or `duration` (or is out of range).  The code does
not: the handler never calls `validate_note_data`; it fills the missing
fields with defaults and reports success.  At the failing input — a batch
holding one empty note dictionary, against the occupied slot `(0, 0)` — the
command returns the success envelope `note_count = 1`, while the
repository's own `validate_note_data` (dead code for this path) rejects
exactly that note, as the claim describes. -/
theorem c1_add_notes_skips_validation :
    (processCommand sampleEnv sampleSong
        [("type", .str "add_notes_to_clip"),
         ("params", .obj [("track_index", .num 0), ("clip_index", .num 0),
                          ("notes", .arr [.obj []])])]).1 =
      successResponse (.obj [("note_count", .num 1)])
  ∧ validate_note_data (.obj []) =
      .error "Note data missing required field: pitch" :=
  ⟨rfl, rfl⟩

/-- C7: the per-connection receive loop is resumable and order-preserving:
when a request's JSON arrives split across two partial reads (the first
fragment alone does not parse), the buffer is retained after the failed
parse, the second chunk is appended, and the request parses to exactly the
value a single read would have produced, after which the buffer is
cleared. -/
theorem c7_split_request_reassembled (c1 c2 : String) (cmd : JVal)
    (h1 : jsonLoads c1 = none) (h2 : jsonLoads (c1 ++ c2) = some cmd) :
    receiveLoop jsonLoads [c1, c2] "" = [cmd] ∧
    receiveLoop jsonLoads [c1 ++ c2] "" = [cmd] := by
  have e1 : ("" ++ c1 : String) = c1 := rfl
  have e2 : ("" ++ (c1 ++ c2) : String) = c1 ++ c2 := rfl
  constructor
  · simp [receiveLoop, e1, h1, h2]
  · simp [receiveLoop, e2, h2]

/-- Witness for C7: the request `{"type":"get_session_info"}` split after
the value string fails to parse alone, and reassembles to the same command
as a single read. -/
theorem c7_split_request_reassembled_witness :
    jsonLoads "\x7b\"type\":\"get_session_info\"" = none ∧
    receiveLoop jsonLoads ["\x7b\"type\":\"get_session_info\"", "\x7d"] "" =
      [.obj [("type", .str "get_session_info")]] :=
  ⟨rfl,
   (c7_split_request_reassembled "\x7b\"type\":\"get_session_info\"" "\x7d"
     (.obj [("type", .str "get_session_info")]) rfl rfl).1⟩

/-- C8: `connect` is idempotent: with a socket already held it returns
`True` immediately and leaves the connection untouched (no new socket), and
whenever a `connect` reports success, a second `connect` is observationally
the identity on the resulting connection. -/
theorem c8_connect_idempotent (c : AbletonConnection) (ns ns1 ns2 : Option Nat) :
    (c.sock.isSome = true → c.connect ns = (true, c))
  ∧ ((c.connect ns1).1 = true →
      (c.connect ns1).2.connect ns2 = (true, (c.connect ns1).2)) := by
  constructor
  · intro h
    unfold AbletonConnection.connect
    cases hs : c.sock with
    | some sk => rfl
    | none => rw [hs] at h; simp at h
  · intro h
    unfold AbletonConnection.connect at h ⊢
    cases hs : c.sock with
    | some sk => simp [hs] at h ⊢
    | none =>
      cases hn : ns1 with
      | some sk => simp [hs, hn] at h ⊢
      | none => rw [hs, hn] at h; simp at h

/-- Witness for C8: an already-connected handle returns `True` unchanged,
and connecting twice from a fresh handle equals connecting once. -/
theorem c8_connect_idempotent_witness :
    (AbletonConnection.connect { host := "localhost", port := 9877, sock := some 3 }
        (some 4) = (true, { host := "localhost", port := 9877, sock := some 3 }))
  ∧ ((AbletonConnection.connect { host := "localhost", port := 9877, sock := none }
        (some 7)).2.connect none =
      (true, (AbletonConnection.connect
        { host := "localhost", port := 9877, sock := none } (some 7)).2)) :=
  ⟨(c8_connect_idempotent { host := "localhost", port := 9877, sock := some 3 }
      (some 4) (some 4) none).1 rfl,
   (c8_connect_idempotent { host := "localhost", port := 9877, sock := none }
      (some 4) (some 7) none).2 rfl⟩

/-- Soundness and none-completeness of the item-level URI search: a hit
carries the searched URI and is reachable within the fuel budget; a miss
means no item reachable within the budget carries it. -/
theorem findItemFrom_spec (g : Browser) (uri : String) :
    ∀ fuel id,
      (∀ j, BrowserHandlers.findItemFrom g uri fuel id = some j →
        (g.items j).uri = some uri ∧ ReachWithin g id j fuel) ∧
      (BrowserHandlers.findItemFrom g uri fuel id = none →
        ∀ j, ReachWithin g id j fuel → (g.items j).uri ≠ some uri) := by
  intro fuel
  induction fuel with
  | zero =>
    intro id
    constructor
    · intro j hj
      unfold BrowserHandlers.findItemFrom at hj
      by_cases hc : (g.items id).uri = some uri
      · rw [if_pos hc] at hj
        injection hj with hj'
        subst hj'
        exact ⟨hc, .refl _ _⟩
      · rw [if_neg hc] at hj
        exact Option.noConfusion hj
    · intro hnone j hr huri
      cases hr with
      | refl =>
        unfold BrowserHandlers.findItemFrom at hnone
        rw [if_pos huri] at hnone
        exact Option.noConfusion hnone
  | succ f ih =>
    intro id
    constructor
    · intro j hj
      unfold BrowserHandlers.findItemFrom at hj
      by_cases hc : (g.items id).uri = some uri
      · rw [if_pos hc] at hj
        injection hj with hj'
        subst hj'
        exact ⟨hc, .refl _ _⟩
      · rw [if_neg hc] at hj
        dsimp only at hj
        cases hch : (g.items id).children with
        | none =>
          rw [hch] at hj
          exact Option.noConfusion hj
        | some cs =>
          rw [hch] at hj
          dsimp only at hj
          by_cases hemp : cs.isEmpty
          · rw [if_pos hemp] at hj
            exact Option.noConfusion hj
          · rw [if_neg hemp] at hj
            obtain ⟨c, hcmem, hfc⟩ := List.exists_of_findSome?_eq_some hj
            obtain ⟨hu, hrw⟩ := (ih c).1 j hfc
            exact ⟨hu, .step hch (Bool.eq_false_iff.mpr hemp) hcmem hrw⟩
    · intro hnone j hr huri
      cases hr with
      | refl =>
        unfold BrowserHandlers.findItemFrom at hnone
        rw [if_pos huri] at hnone
        exact Option.noConfusion hnone
      | step hcs hne hcmem hrest =>
        unfold BrowserHandlers.findItemFrom at hnone
        by_cases hc : (g.items id).uri = some uri
        · rw [if_pos hc] at hnone
          exact Option.noConfusion hnone
        · rw [if_neg hc] at hnone
          dsimp only at hnone
          rw [hcs] at hnone
          dsimp only at hnone
          rw [if_neg (by simp [hne])] at hnone
          have hall := List.findSome?_eq_none_iff.mp hnone
          exact (ih _).2 (hall _ hcmem) j hrest huri

/-- C9: the URI search always terminates — in this embedding it is a total
function of the depth budget, mirroring the source's
`current_depth >= max_depth` guard, so even a cyclic child graph (see the
witness, whose graph has the cycle 0 → 5 → 0) is traversed only to the
bounded depth.  A returned item carries exactly the searched URI and is
reachable within the bound, and when no reachable item within the bound
carries the URI the search returns `None` instead of raising. -/
theorem c9_find_by_uri_bounded (g : Browser) (uri : String) (max_depth : Nat) :
    (∀ j, BrowserHandlers.find_browser_item_by_uri g uri max_depth = some j →
        (g.items j).uri = some uri ∧ ReachFromBrowser g j max_depth)
  ∧ (BrowserHandlers.find_browser_item_by_uri g uri max_depth = none →
      ∀ j, ReachFromBrowser g j max_depth → (g.items j).uri ≠ some uri) := by
  unfold BrowserHandlers.find_browser_item_by_uri
  by_cases h0 : max_depth = 0
  · rw [if_pos h0]
    constructor
    · intro j hj
      exact Option.noConfusion hj
    · intro _ j hr
      have := hr.1
      omega
  · rw [if_neg h0]
    cases hrc : g.rootCategories with
    | none =>
      constructor
      · intro j hj
        exact Option.noConfusion hj
      · intro _ j hr
        obtain ⟨-, cats, hcats, -⟩ := hr
        rw [hrc] at hcats
        exact absurd hcats (by simp)
    | some cats =>
      constructor
      · intro j hj
        obtain ⟨c, hcmem, hfc⟩ := List.exists_of_findSome?_eq_some hj
        obtain ⟨hu, hrw⟩ := (findItemFrom_spec g uri (max_depth - 1) c).1 j hfc
        exact ⟨hu, Nat.pos_of_ne_zero h0, cats, hrc, c, hcmem, hrw⟩
      · intro hnone j hr huri
        obtain ⟨-, cats', hcats', c, hcmem, hrw⟩ := hr
        rw [hrc] at hcats'
        injection hcats' with hcats''
        subst hcats''
        have hall := List.findSome?_eq_none_iff.mp hnone
        exact (findItemFrom_spec g uri (max_depth - 1) c).2 (hall c hcmem) j hrw huri

/-- Witness for C9 on the cyclic sample graph: the search finds node 5
(URI `u5`) through the instruments category despite the 0 → 5 → 0 cycle,
and the theorem yields its URI match and bounded reachability. -/
theorem c9_find_by_uri_bounded_witness :
    (sampleBrowser.items 5).uri = some "u5" ∧
    ReachFromBrowser sampleBrowser 5 10 :=
  (c9_find_by_uri_bounded sampleBrowser "u5" 10).1 5 rfl

/-- C10: `send_command` on a response whose envelope has status `error`
raises the wrapped communication error and clears the held socket (forcing
the next call to reconnect), while a success envelope returns only the
`result` mapping — the `status` field never reaches the caller — and keeps
the socket. -/
theorem c10_send_command_envelopes (c : AbletonConnection) :
    (∀ fields m, jLookup fields "status" = some (.str "error") →
      jLookup fields "message" = some (.str m) →
      c.send_command (.obj fields) =
        (.error ("Communication error with Ableton: " ++ m),
         { c with sock := none }))
  ∧ (∀ fields, jLookup fields "status" = some (.str "success") →
      c.send_command (.obj fields) =
        (.ok (dictGet fields "result" (.obj [])), c)) := by
  constructor
  · intro fields m hs hm
    simp [AbletonConnection.send_command, hs, hm, dictGet, pyMessageText]
  · intro fields hs
    simp [AbletonConnection.send_command, hs, dictGet]

/-- Witness for C10: a server-side validation error (`No clip in slot`)
clears the socket and surfaces the wrapped error, and a success envelope
returns just the result mapping with the socket kept. -/
theorem c10_send_command_envelopes_witness :
    (AbletonConnection.send_command { host := "localhost", port := 9877, sock := some 3 }
        (.obj [("status", .str "error"), ("message", .str "No clip in slot")]) =
      (.error ("Communication error with Ableton: " ++ "No clip in slot"),
       { host := "localhost", port := 9877, sock := none }))
  ∧ (AbletonConnection.send_command { host := "localhost", port := 9877, sock := some 3 }
        (.obj [("status", .str "success"), ("result", .obj [("tempo", .num 140)])]) =
      (.ok (dictGet [("status", .str "success"), ("result", .obj [("tempo", .num 140)])]
         "result" (.obj [])),
       { host := "localhost", port := 9877, sock := some 3 })) :=
  ⟨(c10_send_command_envelopes { host := "localhost", port := 9877, sock := some 3 }).1
      [("status", .str "error"), ("message", .str "No clip in slot")]
      "No clip in slot" rfl rfl,
   (c10_send_command_envelopes { host := "localhost", port := 9877, sock := some 3 }).2
      [("status", .str "success"), ("result", .obj [("tempo", .num 140)])] rfl⟩

end AbletonMCP
